import Mathlib

/-!
Shallow embedding of the NMEA GPS data parser (`src/gps_parser.py` and
`src/utils/helpers.py`) and proofs about its sentence parsers, coordinate
validators and stream-fusion accumulator.

Modelling conventions:
* Python `float` values are modelled as exact rationals (`ℚ`); the numeric
  string fragment accepted by the model is the finite decimal fragment
  (optional sign, digits, optional fractional part), which covers every
  numeric field of an NMEA sentence.
* Python exceptions that the source catches (`IndexError`, `ValueError`,
  `NMEAParseError`) are modelled by `Option`/`Except` propagation: a
  parser that would raise-and-catch returns `none`.  The Lean functions
  are total, so "never propagates an exception to the caller" holds by
  construction.
* `datetime.datetime.utcnow().date()` is an impure input; the parsers take
  it as an explicit `nowDate : Int` parameter (a day ordinal).
-/

/-- Value of an ASCII decimal digit, `none` for any other character. -/
def digitVal (c : Char) : Option Nat :=
  if '0' ≤ c ∧ c ≤ '9' then some (c.toNat - 48) else none

/-- Left-to-right accumulation of a digit string; fails on a non-digit. -/
def digitsAux : List Char → Nat → Option Nat
  | [], acc => some acc
  | c :: cs, acc =>
    match digitVal c with
    | some d => digitsAux cs (acc * 10 + d)
    | none => none

/-- Nonempty all-digit string to `Nat`; models the digit core of
Python `int(...)` (which raises `ValueError` otherwise). -/
def pyDigits : List Char → Option Nat
  | [] => none
  | cs => digitsAux cs 0

/-- Model of Python `int(s)` on a string: optional sign followed by at
least one digit. -/
def pyIntL : List Char → Option Int
  | '-' :: cs => (pyDigits cs).map (fun n => -(n : Int))
  | '+' :: cs => (pyDigits cs).map (fun n => (n : Int))
  | cs => (pyDigits cs).map (fun n => (n : Int))

/-- Model of Python `float(s)` (finite decimal fragment) on an unsigned
body: `digits`, `digits.digits`, `.digits` or `digits.`;
value is exact in `ℚ`. -/
def pyFloatCore (cs : List Char) : Option ℚ :=
  let intPart := cs.takeWhile (fun c => c ≠ '.')
  match cs.dropWhile (fun c => c ≠ '.') with
  | [] => (pyDigits cs).map (fun n => (n : ℚ))
  | _ :: frac =>
    if intPart = [] ∧ frac = [] then none
    else
      match digitsAux intPart 0, digitsAux frac 0 with
      | some ip, some fp =>
        if frac.all (fun c => c ≠ '.') then
          some ((ip : ℚ) + (fp : ℚ) / (10 : ℚ) ^ frac.length)
        else none
      | _, _ => none

/-- Model of Python `float(s)`: optional sign then decimal body. -/
def pyFloatL : List Char → Option ℚ
  | '-' :: cs => (pyFloatCore cs).map (fun q => -q)
  | '+' :: cs => pyFloatCore cs
  | cs => pyFloatCore cs

/-- Python `int(x)` on a float: truncation toward zero
(`Int.tdiv` of the reduced numerator by the denominator). -/
def pyTrunc (q : ℚ) : Int :=
  q.num.tdiv q.den

/-- Python `str.split(',')`: split on every comma, keeping empty fields. -/
def splitCommaAux : List Char → List Char → List (List Char)
  | [], acc => [acc.reverse]
  | ',' :: cs, acc => acc.reverse :: splitCommaAux cs []
  | c :: cs, acc => splitCommaAux cs (c :: acc)

/-- Tokenize a character list into comma-separated fields. -/
def tokenizeL (cs : List Char) : List (List Char) :=
  splitCommaAux cs []

/-- Tokenize a sentence string into comma-separated fields
(`sentence.split(',')` in the source). -/
def tokenize (s : String) : List (List Char) :=
  tokenizeL s.toList

/-- Python `str.startswith(p)`. -/
def startswith (s p : String) : Bool :=
  p.toList.isPrefixOf s.toList

/-- Python `str.strip()`: drop whitespace at both ends. -/
def pyStrip (s : String) : List Char :=
  ((s.toList.dropWhile Char.isWhitespace).reverse.dropWhile Char.isWhitespace).reverse

/-- Time-of-day record produced by `datetime.time(h, m, s, us)`. -/
structure PyTime where
  hour : Int
  minute : Int
  second : Int
  usec : Int
deriving DecidableEq, Repr

/-- Model of `datetime.time(h, m, s, us)`: raises `ValueError` (here: `none`) when a
component is out of range. -/
def mkPyTime (h m s us : Int) : Option PyTime :=
  if 0 ≤ h ∧ h ≤ 23 ∧ 0 ≤ m ∧ m ≤ 59 ∧ 0 ≤ s ∧ s ≤ 59 ∧ 0 ≤ us ∧ us ≤ 999999 then
    some ⟨h, m, s, us⟩
  else none

/-- Model of `astimezone(pytz.timezone('Asia/Kolkata'))` on a UTC datetime:
shift by +5:30, rolling the calendar date (a day ordinal) when the shifted
time passes midnight. -/
def toIST (nowDate : Int) (t : PyTime) : Int × PyTime :=
  let total := t.hour * 3600 + t.minute * 60 + t.second + 19800
  if total ≥ 86400 then
    (nowDate + 1, ⟨(total - 86400) / 3600, ((total - 86400) / 60) % 60, (total - 86400) % 60, t.usec⟩)
  else
    (nowDate, ⟨total / 3600, (total / 60) % 60, total % 60, t.usec⟩)

/-- Embeds `helpers.is_valid_latitude`: `-90 <= lat <= 90`. -/
def is_valid_latitude (lat : ℚ) : Bool :=
  -90 ≤ lat ∧ lat ≤ 90

/-- Embeds `helpers.is_valid_longitude`: `-180 <= lon <= 180`. -/
def is_valid_longitude (lon : ℚ) : Bool :=
  -180 ≤ lon ∧ lon ≤ 180

/-- Embeds `helpers.knots_to_kmh`: `knots * 1.852`. -/
def knots_to_kmh (knots : ℚ) : ℚ :=
  knots * (1852 / 1000)

/-- Payload of the `helpers.GPSCoordinate` dataclass. -/
structure GPSCoordinate where
  latitude : ℚ
  longitude : ℚ
deriving DecidableEq, Repr

/-- Embeds `helpers.GPSCoordinate.__post_init__`: constructing a coordinate with an
out-of-range component raises `ValueError`; here the smart constructor
returns `Except.error` instead of an object. -/
def GPSCoordinate.make (latitude longitude : ℚ) : Except String GPSCoordinate :=
  if ¬ is_valid_latitude latitude then .error "Invalid latitude"
  else if ¬ is_valid_longitude longitude then .error "Invalid longitude"
  else .ok ⟨latitude, longitude⟩

/-- The field map returned by `GPSParser.parse_gngga` (`parsed_gps_data`). -/
structure GGAData where
  latitude : ℚ
  longitude : ℚ
  date : Int
  time : PyTime
  num_satellites : Int
  high_accuracy : Bool
  fix_quality : Int
deriving DecidableEq, Repr

/-- The field map returned by `GPSParser.parse_gnvtg` (`parsed_vtg_data`). -/
structure VTGData where
  bearing : Option ℚ
  speed_kmh : Option ℚ
deriving DecidableEq, Repr

/-- The GNGGA tag checked by `parts[0] != "$GNGGA"`. -/
def ggaTag : List Char := "$GNGGA".toList

/-- The GNVTG tag checked by `parts[0] != "$GNVTG"`. -/
def vtgTag : List Char := "$GNVTG".toList

/-- Latitude conversion block of `GPSParser.parse_gngga` (lines 113-119):
`int(raw[:2]) + float(raw[2:]) / 60`, negated when the hemisphere field
equals `'S'`. -/
def latFromRaw (raw hemi : List Char) : Option ℚ :=
  match pyIntL (raw.take 2) with
  | none => none
  | some lat_degrees =>
    match pyFloatL (raw.drop 2) with
    | none => none
    | some lat_minutes =>
      let latitude : ℚ := (lat_degrees : ℚ) + lat_minutes / 60
      some (if hemi = ['S'] then -latitude else latitude)

/-- Longitude conversion block of `GPSParser.parse_gngga` (lines 121-127):
`int(raw[:3]) + float(raw[3:]) / 60`, negated when the hemisphere field
equals `'W'`. -/
def lonFromRaw (raw hemi : List Char) : Option ℚ :=
  match pyIntL (raw.take 3) with
  | none => none
  | some lon_degrees =>
    match pyFloatL (raw.drop 3) with
    | none => none
    | some lon_minutes =>
      let longitude : ℚ := (lon_degrees : ℚ) + lon_minutes / 60
      some (if hemi = ['W'] then -longitude else longitude)

/-- Body of `GPSParser.parse_gngga` after the fix-quality gate: UTC time,
coordinates, satellite count, IST date/time, `high_accuracy` flag. -/
def parse_gngga_body (nowDate : Int) (parts : List (List Char)) (fix_quality : Int) :
    Option GGAData := do
  let utc_time ← parts[1]?
  let hours ← pyIntL (utc_time.take 2)
  let minutes ← pyIntL ((utc_time.drop 2).take 2)
  let seconds ← pyFloatL (utc_time.drop 4)
  let gps_time ← mkPyTime hours minutes (pyTrunc seconds)
    (pyTrunc ((seconds - (pyTrunc seconds : ℚ)) * 1000000))
  let raw_latitude ← parts[2]?
  let hemi_lat ← parts[3]?
  let latitude ← latFromRaw raw_latitude hemi_lat
  let raw_longitude ← parts[4]?
  let hemi_lon ← parts[5]?
  let longitude ← lonFromRaw raw_longitude hemi_lon
  let num_satellites ← parts[7]?.bind pyIntL
  let ist := toIST nowDate gps_time
  some {
    latitude := latitude
    longitude := longitude
    date := ist.1
    time := ist.2
    num_satellites := num_satellites
    high_accuracy := fix_quality == 4 || fix_quality == 5
    fix_quality := fix_quality
  }

/-- Embeds `GPSParser.parse_gngga`: tag check, fix-quality gate (drop on
quality 0/6/7/8), then the parse body; every caught `IndexError` or
`ValueError` yields `none`. -/
def parse_gngga (nowDate : Int) (sentence : String) : Option GGAData :=
  let parts := tokenize sentence
  match parts[0]? with
  | none => none
  | some p0 =>
    if p0 ≠ ggaTag then none
    else
      match parts[6]? with
      | none => none
      | some f6 =>
        match pyIntL f6 with
        | none => none
        | some fix_quality =>
          if fix_quality = 0 ∨ fix_quality = 6 ∨ fix_quality = 7 ∨ fix_quality = 8 then none
          else parse_gngga_body nowDate parts fix_quality

/-- Embeds `GPSParser.parse_gnvtg`: tag check, then bearing from field 1 and
speed (km/h) from field 7, empty fields giving `None`; every caught
`IndexError` or `ValueError` yields `none`. -/
def parse_gnvtg (sentence : String) : Option VTGData :=
  let parts := tokenize sentence
  match parts[0]? with
  | none => none
  | some p0 =>
    if p0 ≠ vtgTag then none
    else do
      let f1 ← parts[1]?
      let bearing ← if f1 = [] then some none else (pyFloatL f1).map some
      let f7 ← parts[7]?
      let speed_kmh ← if f7 = [] then some none else (pyFloatL f7).map some
      some { bearing := bearing, speed_kmh := speed_kmh }

/-- Embeds `helpers.NMEAParser._parse_latitude`: raises `ValueError` (modelled as
`Except.error`) when the raw string or the hemisphere field is empty, or
when a numeric conversion fails; otherwise degrees + minutes/60, negated
for `'S'`. -/
def _parse_latitude (raw_lat direction : List Char) : Except String ℚ :=
  if raw_lat = [] ∨ direction = [] then .error "Missing latitude data"
  else
    match pyIntL (raw_lat.take 2) with
    | none => .error "invalid literal for int"
    | some degrees =>
      match pyFloatL (raw_lat.drop 2) with
      | none => .error "could not convert string to float"
      | some minutes =>
        let latitude : ℚ := (degrees : ℚ) + minutes / 60
        .ok (if direction = ['S'] then -latitude else latitude)

/-- Embeds `helpers.NMEAParser._parse_longitude`: like `_parse_latitude` with a
3-digit degree slice, negated for `'W'`. -/
def _parse_longitude (raw_lon direction : List Char) : Except String ℚ :=
  if raw_lon = [] ∨ direction = [] then .error "Missing longitude data"
  else
    match pyIntL (raw_lon.take 3) with
    | none => .error "invalid literal for int"
    | some degrees =>
      match pyFloatL (raw_lon.drop 3) with
      | none => .error "could not convert string to float"
      | some minutes =>
        let longitude : ℚ := (degrees : ℚ) + minutes / 60
        .ok (if direction = ['W'] then -longitude else longitude)

/-- The `helpers.GPSData` dataclass (the helper parser's return payload
before `dataclass_to_dict`). -/
structure GPSData where
  coordinate : GPSCoordinate
  date : Int
  time : PyTime
  num_satellites : Int
  high_accuracy : Bool
  fix_quality : Int
  speed_kmh : Option ℚ
  bearing : Option ℚ
deriving DecidableEq, Repr

/-- Embeds `helpers.NMEAParser.parse_gngga_sentence`: strict variant with a
15-field minimum, length-6 time check, `_parse_latitude`/`_parse_longitude`
decoding and validated `GPSCoordinate` construction; every raised error is
caught and becomes `none`. -/
def parse_gngga_sentence (nowDate : Int) (sentence : String) : Option GPSData :=
  let parts := tokenizeL (pyStrip sentence)
  if ¬ startswith sentence "$GNGGA" ∨ parts.length < 15 then none
  else
    match parts[6]? with
    | none => none
    | some f6 =>
      match (if f6 = [] then some 0 else pyIntL f6) with
      | none => none
      | some fix_quality =>
        if fix_quality = 0 ∨ fix_quality = 6 ∨ fix_quality = 7 ∨ fix_quality = 8 then none
        else do
          let utc_time ← parts[1]?
          if utc_time.length < 6 then none
          else do
            let hours ← pyIntL (utc_time.take 2)
            let minutes ← pyIntL ((utc_time.drop 2).take 2)
            let seconds ← pyFloatL (utc_time.drop 4)
            let gps_time ← mkPyTime hours minutes (pyTrunc seconds)
              (pyTrunc ((seconds - (pyTrunc seconds : ℚ)) * 1000000))
            let raw_lat ← parts[2]?
            let dir_lat ← parts[3]?
            let latitude ← (_parse_latitude raw_lat dir_lat).toOption
            let raw_lon ← parts[4]?
            let dir_lon ← parts[5]?
            let longitude ← (_parse_longitude raw_lon dir_lon).toOption
            let coordinate ← (GPSCoordinate.make latitude longitude).toOption
            let num_satellites ←
              match parts[7]? with
              | none => none
              | some f7 => if f7 = [] then some 0 else pyIntL f7
            some {
              coordinate := coordinate
              date := nowDate
              time := gps_time
              num_satellites := num_satellites
              high_accuracy := fix_quality == 4 || fix_quality == 5
              fix_quality := fix_quality
              speed_kmh := none
              bearing := none
            }

/-! ## Fusion accumulator (`GPSParser.gps_data_handler`)

The `combined_data` dict is modelled as a record with one `Option` per key
that can ever appear: `none` = key absent, `some v` = key present with
value `v`.  For the two VTG keys the stored value is itself an `Option ℚ`
(the dict value may be Python `None`), so presence and non-nullness are
distinct, exactly as for the dict. -/

/-- The handler's `combined_data` dict. -/
structure Accum where
  latitude : Option ℚ
  longitude : Option ℚ
  date : Option Int
  time : Option PyTime
  num_satellites : Option Int
  high_accuracy : Option Bool
  fix_quality : Option Int
  bearing : Option (Option ℚ)
  speed_kmh : Option (Option ℚ)
deriving DecidableEq, Repr

/-- The initial (and reset) state `combined_data = {}`. -/
def emptyAccum : Accum :=
  ⟨none, none, none, none, none, none, none, none, none⟩

/-- Merge step `combined_data.update(parsed_gga_data)`: every GGA key is written. -/
def updateGGA (a : Accum) (g : GGAData) : Accum :=
  { a with
    latitude := some g.latitude
    longitude := some g.longitude
    date := some g.date
    time := some g.time
    num_satellites := some g.num_satellites
    high_accuracy := some g.high_accuracy
    fix_quality := some g.fix_quality }

/-- Merge step `combined_data.update(parsed_vtg_data)`: both VTG keys are written. -/
def updateVTG (a : Accum) (v : VTGData) : Accum :=
  { a with
    bearing := some v.bearing
    speed_kmh := some v.speed_kmh }

/-- The dispatch-and-merge part of one loop iteration of
`gps_data_handler`: `startswith`-dispatch to a sentence parser, merging a
non-`None` result into `combined_data`. -/
def mergeLine (nowDate : Int) (a : Accum) (line : String) : Accum :=
  if startswith line "$GNGGA" then
    match parse_gngga nowDate line with
    | some g => updateGGA a g
    | none => a
  else if startswith line "$GNVTG" then
    match parse_gnvtg line with
    | some v => updateVTG a v
    | none => a
  else a

/-- The handler's completeness test:
`'latitude' in combined_data and 'speed_kmh' in combined_data`. -/
def complete (a : Accum) : Bool :=
  a.latitude.isSome && a.speed_kmh.isSome

/-- What the handler does on a complete accumulator: the logged snapshot
and whether `insert_into_database` actually wrote (its coordinate-range
guard). -/
structure Emission where
  snapshot : Accum
  written : Bool
deriving DecidableEq, Repr

/-- One full loop iteration of `gps_data_handler` on one read line:
merge, then, if the completeness test passes, read the insert arguments
out of the dict (`combined_data['latitude']` etc.; a missing key would
raise `KeyError`, escape to the outer `except` and end the loop, modelled
as `none`), attempt the guarded insert, and reset `combined_data = {}`. -/
def handlerStep (nowDate : Int) (a : Accum) (line : String) :
    Option (Accum × Option Emission) :=
  let a' := mergeLine nowDate a line
  if complete a' then
    match a'.latitude, a'.longitude, a'.date, a'.time, a'.speed_kmh with
    | some la, some lo, some _, some _, some _ =>
      some (emptyAccum,
        some { snapshot := a', written := is_valid_latitude la && is_valid_longitude lo })
    | _, _, _, _, _ => none
  else some (a', none)

/-- Iterated `handlerStep` over a list of read lines, collecting the
emissions in order. -/
def runHandler (nowDate : Int) (a : Accum) : List String → Option (Accum × List Emission)
  | [] => some (a, [])
  | line :: rest =>
    match handlerStep nowDate a line with
    | none => none
    | some (a', e) =>
      match runHandler nowDate a' rest with
      | none => none
      | some (a'', es) => some (a'', e.toList ++ es)

/-- Accumulator states reachable from the initial empty dict by whole
loop iterations (the states seen at the top of the read loop). -/
inductive Reachable (nowDate : Int) : Accum → Prop where
  | empty : Reachable nowDate emptyAccum
  | step {a a' : Accum} {line : String} {e : Option Emission} :
      Reachable nowDate a → handlerStep nowDate a line = some (a', e) →
      Reachable nowDate a'

/-- The union of one GGA partial record's fields and one VTG partial
record's fields, as an accumulator snapshot. -/
def unionAccum (g : GGAData) (v : VTGData) : Accum :=
  { latitude := some g.latitude
    longitude := some g.longitude
    date := some g.date
    time := some g.time
    num_satellites := some g.num_satellites
    high_accuracy := some g.high_accuracy
    fix_quality := some g.fix_quality
    bearing := some v.bearing
    speed_kmh := some v.speed_kmh }

/-- The spec's five-key completeness predicate: `latitude`, `longitude`,
`date`, `time` and `speed_kmh` are all present (presence of the key, not
non-nullness of its value). -/
def fiveKeys (a : Accum) : Prop :=
  a.latitude.isSome ∧ a.longitude.isSome ∧ a.date.isSome ∧
    a.time.isSome ∧ a.speed_kmh.isSome

/-- Invariant tying the four GGA-written keys together: they are present
or absent as a block. -/
def ggaSync (a : Accum) : Prop :=
  a.longitude.isSome = a.latitude.isSome ∧
    a.date.isSome = a.latitude.isSome ∧
    a.time.isSome = a.latitude.isSome

/-- The fix-sentence scenario input of the spec (also used by the
repository's tests). -/
def ggaSentence : String :=
  "$GNGGA,123519.00,4807.038,N,01131.000,E,1,08,0.9,545.4,M,46.9,M,,*47"

/-- The record `parse_gngga` produces for `ggaSentence` (with day
ordinal 0): lat `48.1173`, lon `11.51666…`, IST time `18:05:19`. -/
def ggaSentenceData : GGAData :=
  ⟨481173/10000, 691/60, 0, ⟨18, 5, 19, 0⟩, 8, false, 1⟩

/-- The course-sentence scenario input of the spec. -/
def vtgSentence : String :=
  "$GNVTG,054.7,T,034.4,M,005.5,N,010.2,K*48"

/-- The record `parse_gnvtg` produces for `vtgSentence`:
bearing `54.7`, speed `10.2`. -/
def vtgSentenceData : VTGData :=
  ⟨some (547/10), some (51/5)⟩

set_option maxHeartbeats 1000000 in
/-- Concrete evaluation of the fix-sentence parser on the scenario input. -/
lemma parse_gngga_sample : parse_gngga 0 ggaSentence = some ggaSentenceData := by
  simp [parse_gngga, ggaSentence, ggaSentenceData, tokenize, tokenizeL, splitCommaAux,
    parse_gngga_body, ggaTag, pyIntL, pyDigits, digitsAux, digitVal, pyFloatL,
    pyFloatCore, pyTrunc, mkPyTime, latFromRaw, lonFromRaw, toIST]
  norm_num [Int.tdiv]

/-- Concrete evaluation of the course-sentence parser on the scenario
input. -/
lemma parse_gnvtg_sample : parse_gnvtg vtgSentence = some vtgSentenceData := by
  simp [parse_gnvtg, vtgSentence, vtgSentenceData, tokenize, tokenizeL, splitCommaAux,
    vtgTag, pyFloatL, pyFloatCore, pyDigits, digitsAux, digitVal]
  norm_num

/-! ## Helper lemmas about the fusion state machine -/

/-- Merging a GGA record makes the four GGA position keys present as a
block. -/
lemma updateGGA_sync (a : Accum) (g : GGAData) : ggaSync (updateGGA a g) := by
  simp [ggaSync, updateGGA]

/-- Merging a VTG record does not touch the GGA position keys. -/
lemma updateVTG_sync (a : Accum) (v : VTGData) (h : ggaSync a) :
    ggaSync (updateVTG a v) := by
  simpa [ggaSync, updateVTG] using h

/-- One dispatch-and-merge preserves the block-presence invariant. -/
lemma mergeLine_sync (nowDate : Int) (a : Accum) (line : String) (h : ggaSync a) :
    ggaSync (mergeLine nowDate a line) := by
  unfold mergeLine
  split
  · cases parse_gngga nowDate line with
    | none => exact h
    | some g => exact updateGGA_sync a g
  · split
    · cases parse_gnvtg line with
      | none => exact h
      | some v => exact updateVTG_sync a v h
    · exact h

/-- Exhaustive description of one loop iteration: either the merged dict
passed the completeness test, one emission happened and the dict was
reset, or it failed the test, nothing was emitted and the merged dict is
carried over. -/
lemma handlerStep_cases {nowDate : Int} {a : Accum} {line : String}
    {a' : Accum} {e : Option Emission}
    (h : handlerStep nowDate a line = some (a', e)) :
    (complete (mergeLine nowDate a line) = true ∧ a' = emptyAccum ∧ ∃ em, e = some em) ∨
      (complete (mergeLine nowDate a line) = false ∧ a' = mergeLine nowDate a line ∧ e = none) := by
  unfold handlerStep at h
  by_cases hc : complete (mergeLine nowDate a line)
  · rw [if_pos hc] at h
    left
    refine ⟨hc, ?_⟩
    split at h
    · injection h with h1
      rw [Prod.mk.injEq] at h1
      exact ⟨h1.1.symm, _, h1.2.symm⟩
    · cases h
  · rw [if_neg hc] at h
    right
    cases h
    exact ⟨by simpa using hc, rfl, rfl⟩

/-- Top-of-loop invariant: every reachable accumulator state has its GGA
keys present as a block and fails the completeness test. -/
lemma reachable_inv {nowDate : Int} {a : Accum} (h : Reachable nowDate a) :
    ggaSync a ∧ complete a = false := by
  induction h with
  | empty => exact ⟨by simp [ggaSync, emptyAccum], by simp [complete, emptyAccum]⟩
  | step hr hs ih =>
    rcases handlerStep_cases hs with ⟨_, rfl, _⟩ | ⟨hc, rfl, _⟩
    · exact ⟨by simp [ggaSync, emptyAccum], by simp [complete, emptyAccum]⟩
    · exact ⟨mergeLine_sync _ _ _ ih.1, hc⟩

/-- Under the block-presence invariant, the source's two-key test agrees
with the spec's five-key presence predicate. -/
lemma complete_iff_fiveKeys {a : Accum} (h : ggaSync a) :
    complete a = true ↔ fiveKeys a := by
  obtain ⟨h1, h2, h3⟩ := h
  simp only [complete, fiveKeys, Bool.and_eq_true]
  constructor
  · rintro ⟨hla, hsp⟩
    exact ⟨hla, h1 ▸ hla, h2 ▸ hla, h3 ▸ hla, hsp⟩
  · rintro ⟨hla, _, _, _, hsp⟩
    exact ⟨hla, hsp⟩

/-- Merging one GGA record and one VTG record into the empty dict, in
either order, yields the union snapshot. -/
lemma merge_union_comm (g : GGAData) (v : VTGData) :
    updateVTG (updateGGA emptyAccum g) v = unionAccum g v ∧
      updateGGA (updateVTG emptyAccum v) g = unionAccum g v :=
  ⟨rfl, rfl⟩

/-! ## Claim theorems: fusion state machine -/

/-- C1: starting from an empty accumulator, for either interleaving of one
valid fix-sentence (GNGGA) and one valid course-sentence (GNVTG), the
stream handler emits exactly one combined fix whose fields are the union
of the two partial records' fields, and immediately resets the
accumulator to empty. -/
theorem c1_fusion_interleaving (nowDate : Int) (g v : String)
    (pg : GGAData) (pv : VTGData)
    (hg1 : startswith g "$GNGGA" = true) (hg2 : parse_gngga nowDate g = some pg)
    (hv0 : startswith v "$GNGGA" = false) (hv1 : startswith v "$GNVTG" = true)
    (hv2 : parse_gnvtg v = some pv) :
    runHandler nowDate emptyAccum [g, v] =
      some (emptyAccum,
        [⟨unionAccum pg pv,
          is_valid_latitude pg.latitude && is_valid_longitude pg.longitude⟩]) ∧
    runHandler nowDate emptyAccum [v, g] =
      some (emptyAccum,
        [⟨unionAccum pg pv,
          is_valid_latitude pg.latitude && is_valid_longitude pg.longitude⟩]) := by
  have hu := merge_union_comm pg pv
  constructor
  · have s1 : handlerStep nowDate emptyAccum g = some (updateGGA emptyAccum pg, none) := by
      unfold handlerStep
      have hm : mergeLine nowDate emptyAccum g = updateGGA emptyAccum pg := by
        simp [mergeLine, hg1, hg2]
      rw [hm]
      simp [complete, updateGGA, emptyAccum]
    have s2 : handlerStep nowDate (updateGGA emptyAccum pg) v =
        some (emptyAccum,
          some ⟨unionAccum pg pv,
            is_valid_latitude pg.latitude && is_valid_longitude pg.longitude⟩) := by
      unfold handlerStep
      have hm : mergeLine nowDate (updateGGA emptyAccum pg) v = unionAccum pg pv := by
        simp [mergeLine, hv0, hv1, hv2, hu.1]
      rw [hm]
      simp [complete, unionAccum]
    simp [runHandler, s1, s2]
  · have s1 : handlerStep nowDate emptyAccum v = some (updateVTG emptyAccum pv, none) := by
      unfold handlerStep
      have hm : mergeLine nowDate emptyAccum v = updateVTG emptyAccum pv := by
        simp [mergeLine, hv0, hv1, hv2]
      rw [hm]
      simp [complete, updateVTG, emptyAccum]
    have s2 : handlerStep nowDate (updateVTG emptyAccum pv) g =
        some (emptyAccum,
          some ⟨unionAccum pg pv,
            is_valid_latitude pg.latitude && is_valid_longitude pg.longitude⟩) := by
      unfold handlerStep
      have hm : mergeLine nowDate (updateVTG emptyAccum pv) g = unionAccum pg pv := by
        simp [mergeLine, hg1, hg2, hu.2]
      rw [hm]
      simp [complete, unionAccum]
    simp [runHandler, s1, s2]

/-- C2: on every reachable accumulator state the source's completeness
test (`'latitude' in combined_data and 'speed_kmh' in combined_data`)
holds exactly when all five keys `latitude`, `longitude`, `date`, `time`,
`speed_kmh` are present; an arrival emits a combined fix iff the five-key
predicate holds after the merge; and a `speed_kmh` key mapped to a null
value still counts as present. -/
theorem c2_completeness_predicate (nowDate : Int) (a : Accum)
    (h : Reachable nowDate a) :
    (complete a = true ↔ fiveKeys a) ∧
    (∀ line a' e, handlerStep nowDate a line = some (a', e) →
      (e.isSome = true ↔ fiveKeys (mergeLine nowDate a line))) ∧
    (∀ b v, v.speed_kmh = none → (updateVTG b v).speed_kmh.isSome = true) := by
  obtain ⟨hsync, hcf⟩ := reachable_inv h
  refine ⟨complete_iff_fiveKeys hsync, ?_, ?_⟩
  · intro line a' e hs
    have hsync' := mergeLine_sync nowDate a line hsync
    rcases handlerStep_cases hs with ⟨hc, _, em, rfl⟩ | ⟨hc, _, rfl⟩
    · simp [(complete_iff_fiveKeys hsync').mp hc]
    · constructor
      · intro h'
        simp at h'
      · intro hf
        rw [(complete_iff_fiveKeys hsync').mpr hf] at hc
        cases hc
  · intro b v hv
    simp [updateVTG]

/-- C10: loop invariant of the stream handler — at the start of every
read iteration the accumulator never contains both the `latitude` and the
`speed_kmh` keys (the completeness test is false on every reachable
state); and whenever an iteration emits, it resets the accumulator to
empty unconditionally, in particular also when the completed fix fails
the coordinate-range check and no storage write is performed. -/
theorem c10_loop_invariant :
    (∀ nowDate a, Reachable nowDate a → complete a = false) ∧
    (∀ nowDate a line a' em,
      handlerStep nowDate a line = some (a', some em) → a' = emptyAccum) := by
  constructor
  · intro nowDate a h
    exact (reachable_inv h).2
  · intro nowDate a line a' em h
    rcases handlerStep_cases h with ⟨_, rfl, _⟩ | ⟨_, _, h3⟩
    · rfl
    · cases h3

/-- A GGA record whose latitude (200) is outside the valid range, used to
exercise the handler's reset-on-invalid-fix path. -/
def badGGAData : GGAData := ⟨200, 0, 0, ⟨0, 0, 0, 0⟩, 0, false, 1⟩

/-- An accumulator holding the invalid GGA record. -/
def badAccum : Accum := updateGGA emptyAccum badGGAData

/-- Witness for C1 at the two scenario sentences of the spec. -/
theorem c1_fusion_interleaving_witness :
    runHandler 0 emptyAccum [ggaSentence, vtgSentence] =
      some (emptyAccum,
        [⟨unionAccum ggaSentenceData vtgSentenceData,
          is_valid_latitude ggaSentenceData.latitude &&
            is_valid_longitude ggaSentenceData.longitude⟩]) ∧
    runHandler 0 emptyAccum [vtgSentence, ggaSentence] =
      some (emptyAccum,
        [⟨unionAccum ggaSentenceData vtgSentenceData,
          is_valid_latitude ggaSentenceData.latitude &&
            is_valid_longitude ggaSentenceData.longitude⟩]) :=
  c1_fusion_interleaving 0 ggaSentence vtgSentence ggaSentenceData vtgSentenceData
    (by decide) parse_gngga_sample (by decide) (by decide) parse_gnvtg_sample

/-- Witness for C2: instantiated at the empty accumulator, a first VTG
arrival (no emission, five-key predicate still false) and a null-speed
VTG merge. -/
theorem c2_completeness_predicate_witness :
    ((complete emptyAccum = true) ↔ fiveKeys emptyAccum) ∧
    (((none : Option Emission).isSome = true) ↔
      fiveKeys (mergeLine 0 emptyAccum vtgSentence)) ∧
    (updateVTG emptyAccum ⟨none, none⟩).speed_kmh.isSome = true := by
  have h := c2_completeness_predicate 0 emptyAccum Reachable.empty
  have hstep : handlerStep 0 emptyAccum vtgSentence =
      some (updateVTG emptyAccum vtgSentenceData, none) := by
    have hng : startswith vtgSentence "$GNGGA" = false := by decide
    have hnv : startswith vtgSentence "$GNVTG" = true := by decide
    have hm : mergeLine 0 emptyAccum vtgSentence = updateVTG emptyAccum vtgSentenceData := by
      simp [mergeLine, hng, hnv, parse_gnvtg_sample]
    rw [handlerStep, hm]
    simp [complete, updateVTG, emptyAccum]
  exact ⟨h.1, h.2.1 vtgSentence _ none hstep, h.2.2 emptyAccum ⟨none, none⟩ rfl⟩

/-- Witness for C10: the invariant at the initial state, and a concrete
iteration in which the completed fix has latitude 200 (range check fails,
`written = false`) yet the accumulator is still reset to empty. -/
theorem c10_loop_invariant_witness :
    complete emptyAccum = false ∧
    handlerStep 0 badAccum vtgSentence =
      some (emptyAccum, some ⟨unionAccum badGGAData vtgSentenceData, false⟩) ∧
    emptyAccum = emptyAccum := by
  have hstep : handlerStep 0 badAccum vtgSentence =
      some (emptyAccum, some ⟨unionAccum badGGAData vtgSentenceData, false⟩) := by
    have hng : startswith vtgSentence "$GNGGA" = false := by decide
    have hnv : startswith vtgSentence "$GNVTG" = true := by decide
    have hm : mergeLine 0 badAccum vtgSentence = unionAccum badGGAData vtgSentenceData := by
      simp [mergeLine, hng, hnv, parse_gnvtg_sample]
      rfl
    rw [handlerStep, hm]
    have hla : is_valid_latitude (200 : ℚ) = false := by
      norm_num [is_valid_latitude]
    simp [complete, unionAccum, badGGAData, vtgSentenceData, hla]
  exact ⟨(c10_loop_invariant.1 0 emptyAccum Reachable.empty), hstep,
    c10_loop_invariant.2 0 badAccum vtgSentence emptyAccum _ hstep⟩

/-! ## Claim theorems: coordinate validation -/

/-- C7: the latitude check accepts exactly `[-90, 90]`, the longitude
check exactly `[-180, 180]` (inclusive); the four boundary values are
valid, `90.0001` and `-180.0001` are rejected; constructing a
`GPSCoordinate` with an out-of-range component fails instead of
producing the object, and succeeds on in-range components. -/
theorem c7_coordinate_bounds :
    (∀ l : ℚ, is_valid_latitude l = true ↔ (-90 ≤ l ∧ l ≤ 90)) ∧
    (∀ g : ℚ, is_valid_longitude g = true ↔ (-180 ≤ g ∧ g ≤ 180)) ∧
    is_valid_latitude 90 = true ∧ is_valid_latitude (-90) = true ∧
    is_valid_longitude 180 = true ∧ is_valid_longitude (-180) = true ∧
    is_valid_latitude (900001/10000) = false ∧
    is_valid_longitude (-(1800001/10000)) = false ∧
    (∀ l g : ℚ, (is_valid_latitude l = false ∨ is_valid_longitude g = false) →
      ∃ e, GPSCoordinate.make l g = Except.error e) ∧
    (∀ l g : ℚ, is_valid_latitude l = true → is_valid_longitude g = true →
      GPSCoordinate.make l g = Except.ok ⟨l, g⟩) := by
  refine ⟨?_, ?_, ?_, ?_, ?_, ?_, ?_, ?_, ?_, ?_⟩
  · intro l
    simp [is_valid_latitude]
  · intro g
    simp [is_valid_longitude]
  · norm_num [is_valid_latitude]
  · norm_num [is_valid_latitude]
  · norm_num [is_valid_longitude]
  · norm_num [is_valid_longitude]
  · norm_num [is_valid_latitude]
  · norm_num [is_valid_longitude]
  · intro l g h
    rcases h with h | h
    · exact ⟨"Invalid latitude", by simp [GPSCoordinate.make, h]⟩
    · by_cases hl : is_valid_latitude l
      · exact ⟨"Invalid longitude", by simp [GPSCoordinate.make, hl, h]⟩
      · exact ⟨"Invalid latitude", by simp [GPSCoordinate.make, hl]⟩
  · intro l g hl hg
    simp [GPSCoordinate.make, hl, hg]

/-- Witness for C7: the characterizations applied at the boundary and at
a failing construction `GPSCoordinate.make 91 0`. -/
theorem c7_coordinate_bounds_witness :
    ((-90 : ℚ) ≤ 90 ∧ (90 : ℚ) ≤ 90) ∧
    (∃ e, GPSCoordinate.make 91 0 = Except.error e) ∧
    GPSCoordinate.make 45 90 = Except.ok ⟨45, 90⟩ := by
  refine ⟨(c7_coordinate_bounds.1 90).mp (by norm_num [is_valid_latitude]),
    c7_coordinate_bounds.2.2.2.2.2.2.2.2.1 91 0 (Or.inl (by norm_num [is_valid_latitude])),
    c7_coordinate_bounds.2.2.2.2.2.2.2.2.2 45 90 (by norm_num [is_valid_latitude])
      (by norm_num [is_valid_longitude])⟩

/-! ## Course-sentence parser characterization -/

/-- On a sentence whose field 0 is the GNVTG tag, `parse_gnvtg` is the
two-field decode of fields 1 and 7 (empty field → null, malformed
numeric → failure). -/
lemma parse_gnvtg_fields (s : String) (f1 f7 : List Char)
    (h0 : (tokenize s)[0]? = some vtgTag) (h1 : (tokenize s)[1]? = some f1)
    (h7 : (tokenize s)[7]? = some f7) :
    parse_gnvtg s =
      ((if f1 = [] then some none else (pyFloatL f1).map some).bind fun bearing =>
        (if f7 = [] then some none else (pyFloatL f7).map some).bind fun speed_kmh =>
          some ⟨bearing, speed_kmh⟩) := by
  unfold parse_gnvtg
  simp only [h0, h1, h7]
  by_cases hf1 : f1 = [] <;> by_cases hf7 : f7 = [] <;> simp [hf1, hf7]

/-- The empty string is not a number for the float decoder. -/
lemma pyFloatL_nil : pyFloatL [] = none := by decide

/-- C5 (counterexample): at the scenario course-sentence, field 7 holds
`010.2` (numeric value 10.2) and the parser returns `speed_kmh = 10.2`
directly — not `1.852 × 10.2`, as the claim's knots conversion would
require. -/
theorem c5_counterexample :
    parse_gnvtg vtgSentence = some vtgSentenceData ∧
    (tokenize vtgSentence)[7]? = some "010.2".toList ∧
    pyFloatL "010.2".toList = some (51/5) ∧
    vtgSentenceData.speed_kmh = some (51/5) ∧
    vtgSentenceData.speed_kmh ≠ some (knots_to_kmh (51/5)) := by
  refine ⟨parse_gnvtg_sample, by decide, ?_, rfl, ?_⟩
  · simp [pyFloatL, pyFloatCore, pyDigits, digitsAux, digitVal]
    norm_num
  · simp [vtgSentenceData, knots_to_kmh]
    norm_num

/-- C5 (amended): the course-sentence parser reads its speed directly
from field index 7, which already carries km/h: for every course-sentence
with a non-empty numeric field 7 the returned `speed_kmh` equals the
numeric value of field 7 itself (no knots conversion is applied), and an
empty field 7 yields null. -/
theorem c5_amended_speed_from_field7 (s : String) (f7 : List Char)
    (h0 : (tokenize s)[0]? = some vtgTag)
    (h1 : ∃ f1, (tokenize s)[1]? = some f1 ∧ (f1 = [] ∨ (pyFloatL f1).isSome))
    (h7 : (tokenize s)[7]? = some f7) :
    (∀ x : ℚ, pyFloatL f7 = some x →
      ∃ r, parse_gnvtg s = some r ∧ r.speed_kmh = some x) ∧
    (f7 = [] → ∃ r, parse_gnvtg s = some r ∧ r.speed_kmh = none) := by
  obtain ⟨f1, hf1, hb⟩ := h1
  rw [parse_gnvtg_fields s f1 f7 h0 hf1 h7]
  constructor
  · intro x hx
    have hne : f7 ≠ [] := by
      rintro rfl
      rw [pyFloatL_nil] at hx
      cases hx
    rcases hb with rfl | hbs
    · exact ⟨⟨none, some x⟩, by simp [hx, hne], rfl⟩
    · obtain ⟨b, hbv⟩ := Option.isSome_iff_exists.mp hbs
      have hne1 : f1 ≠ [] := by
        rintro rfl
        rw [pyFloatL_nil] at hbv
        cases hbv
      exact ⟨⟨some b, some x⟩, by simp [hx, hne, hbv, hne1], rfl⟩
  · rintro rfl
    rcases hb with rfl | hbs
    · exact ⟨⟨none, none⟩, by simp, rfl⟩
    · obtain ⟨b, hbv⟩ := Option.isSome_iff_exists.mp hbs
      have hne1 : f1 ≠ [] := by
        rintro rfl
        rw [pyFloatL_nil] at hbv
        cases hbv
      exact ⟨⟨some b, none⟩, by simp [hbv, hne1], rfl⟩

/-- Witness for the amended C5: the scenario sentence yields speed 10.2
(the raw field-7 value), and the same sentence with field 7 emptied
yields a null speed. -/
theorem c5_amended_speed_from_field7_witness :
    (∃ r, parse_gnvtg vtgSentence = some r ∧ r.speed_kmh = some (51/5)) ∧
    (∃ r, parse_gnvtg "$GNVTG,054.7,T,034.4,M,005.5,N,,K*48" = some r ∧
      r.speed_kmh = none) := by
  have h1 := c5_amended_speed_from_field7 vtgSentence "010.2".toList (by decide)
    ⟨"054.7".toList, by decide, Or.inr (by decide)⟩ (by decide)
  have h2 := c5_amended_speed_from_field7 "$GNVTG,054.7,T,034.4,M,005.5,N,,K*48" []
    (by decide) ⟨"054.7".toList, by decide, Or.inr (by decide)⟩ (by decide)
  refine ⟨h1.1 (51/5) ?_, h2.2 rfl⟩
  simp [pyFloatL, pyFloatCore, pyDigits, digitsAux, digitVal]
  norm_num

/-- C6: the scenario course-sentence decodes to bearing 54.7 and
speed 10.2; and every course-sentence with an empty field 1 (and a
well-formed field 7) parses with a null bearing rather than an error. -/
theorem c6_course_scenario :
    parse_gnvtg vtgSentence = some vtgSentenceData ∧
    vtgSentenceData.bearing = some (547/10) ∧
    vtgSentenceData.speed_kmh = some (51/5) ∧
    (∀ s f7, (tokenize s)[0]? = some vtgTag → (tokenize s)[1]? = some [] →
      (tokenize s)[7]? = some f7 → (f7 = [] ∨ (pyFloatL f7).isSome) →
      ∃ r, parse_gnvtg s = some r ∧ r.bearing = none) := by
  refine ⟨parse_gnvtg_sample, rfl, rfl, ?_⟩
  intro s f7 h0 h1 h7 hf
  rw [parse_gnvtg_fields s [] f7 h0 h1 h7]
  rcases hf with rfl | hs
  · exact ⟨⟨none, none⟩, by simp, rfl⟩
  · obtain ⟨x, hx⟩ := Option.isSome_iff_exists.mp hs
    have hne : f7 ≠ [] := by
      rintro rfl
      rw [pyFloatL_nil] at hx
      cases hx
    exact ⟨⟨none, some x⟩, by simp [hx, hne], rfl⟩

/-- Witness for C6: the scenario sentence with its bearing field emptied
parses with a null bearing. -/
theorem c6_course_scenario_witness :
    ∃ r, parse_gnvtg "$GNVTG,,T,034.4,M,005.5,N,010.2,K*48" = some r ∧
      r.bearing = none :=
  c6_course_scenario.2.2.2 "$GNVTG,,T,034.4,M,005.5,N,010.2,K*48" "010.2".toList
    (by decide) (by decide) (by decide) (Or.inr (by decide))

/-! ## Fix-sentence parser characterization -/

/-- Inversion of the latitude conversion block: a successful decode comes
from a 2-digit degree slice and a decimal-minutes remainder, negated
exactly on hemisphere `'S'`. -/
lemma latFromRaw_inv {raw hemi : List Char} {x : ℚ}
    (h : latFromRaw raw hemi = some x) :
    ∃ d m, pyIntL (raw.take 2) = some d ∧ pyFloatL (raw.drop 2) = some m ∧
      x = (if hemi = ['S'] then -((d : ℚ) + m / 60) else (d : ℚ) + m / 60) := by
  cases hd : pyIntL (raw.take 2) with
  | none => simp [latFromRaw, hd] at h
  | some d =>
    cases hm : pyFloatL (raw.drop 2) with
    | none => simp [latFromRaw, hd, hm] at h
    | some m =>
      simp only [latFromRaw, hd, hm, Option.some.injEq] at h
      exact ⟨d, m, rfl, rfl, h.symm⟩

/-- Inversion of the longitude conversion block: 3-digit degree slice,
negation exactly on hemisphere `'W'`. -/
lemma lonFromRaw_inv {raw hemi : List Char} {x : ℚ}
    (h : lonFromRaw raw hemi = some x) :
    ∃ d m, pyIntL (raw.take 3) = some d ∧ pyFloatL (raw.drop 3) = some m ∧
      x = (if hemi = ['W'] then -((d : ℚ) + m / 60) else (d : ℚ) + m / 60) := by
  cases hd : pyIntL (raw.take 3) with
  | none => simp [lonFromRaw, hd] at h
  | some d =>
    cases hm : pyFloatL (raw.drop 3) with
    | none => simp [lonFromRaw, hd, hm] at h
    | some m =>
      simp only [lonFromRaw, hd, hm, Option.some.injEq] at h
      exact ⟨d, m, rfl, rfl, h.symm⟩

/-- Inversion of the fix-sentence parser: a successful parse took its
latitude from fields 2/3 via `latFromRaw` and its longitude from
fields 4/5 via `lonFromRaw`. -/
lemma parse_gngga_inv {nowDate : Int} {s : String} {r : GGAData}
    (h : parse_gngga nowDate s = some r) :
    ∃ raw2 hem3 raw4 hem5,
      (tokenize s)[2]? = some raw2 ∧ (tokenize s)[3]? = some hem3 ∧
      (tokenize s)[4]? = some raw4 ∧ (tokenize s)[5]? = some hem5 ∧
      latFromRaw raw2 hem3 = some r.latitude ∧
      lonFromRaw raw4 hem5 = some r.longitude := by
  simp only [parse_gngga] at h
  split at h
  · cases h
  · split at h
    · cases h
    · split at h
      · cases h
      · split at h
        · cases h
        · split at h
          · cases h
          · unfold parse_gngga_body at h
            simp only [Option.bind_eq_bind'] at h
            rw [Option.bind_eq_some] at h
            obtain ⟨utc, hutc, h⟩ := h
            rw [Option.bind_eq_some] at h
            obtain ⟨hrs, hhrs, h⟩ := h
            rw [Option.bind_eq_some] at h
            obtain ⟨mins, hmins, h⟩ := h
            rw [Option.bind_eq_some] at h
            obtain ⟨secs, hsecs, h⟩ := h
            rw [Option.bind_eq_some] at h
            obtain ⟨t, ht, h⟩ := h
            rw [Option.bind_eq_some] at h
            obtain ⟨raw2, hraw2, h⟩ := h
            rw [Option.bind_eq_some] at h
            obtain ⟨hem3, hhem3, h⟩ := h
            rw [Option.bind_eq_some] at h
            obtain ⟨lat, hlat, h⟩ := h
            rw [Option.bind_eq_some] at h
            obtain ⟨raw4, hraw4, h⟩ := h
            rw [Option.bind_eq_some] at h
            obtain ⟨hem5, hhem5, h⟩ := h
            rw [Option.bind_eq_some] at h
            obtain ⟨lon, hlon, h⟩ := h
            rw [Option.bind_eq_some] at h
            obtain ⟨ns, hns, h⟩ := h
            injection h with h
            subst h
            exact ⟨raw2, hem3, raw4, hem5, hraw2, hhem3, hraw4, hhem5, hlat, hlon⟩

/-- C3: the fix-sentence parser computes decimal degrees as integer
degrees plus decimal minutes over 60 (2 degree digits for latitude, 3 for
longitude), negating on hemisphere `'S'`/`'W'`; on the scenario input it
returns latitude `48.1173 = 48 + 7.038/60`, longitude
`11.51666… = 11 + 31/60`, fix quality 1 and 8 satellites. -/
theorem c3_gga_decoding :
    parse_gngga 0 ggaSentence = some ggaSentenceData ∧
    ggaSentenceData.latitude = 48 + (7038/1000)/60 ∧
    ggaSentenceData.latitude = 481173/10000 ∧
    ggaSentenceData.longitude = 11 + 31/60 ∧
    ggaSentenceData.longitude = 691/60 ∧
    ggaSentenceData.fix_quality = 1 ∧
    ggaSentenceData.num_satellites = 8 ∧
    (∀ nowDate s r, parse_gngga nowDate s = some r →
      ∃ raw2 hem3 raw4 hem5 d m d2 m2,
        (tokenize s)[2]? = some raw2 ∧ (tokenize s)[3]? = some hem3 ∧
        (tokenize s)[4]? = some raw4 ∧ (tokenize s)[5]? = some hem5 ∧
        pyIntL (raw2.take 2) = some d ∧ pyFloatL (raw2.drop 2) = some m ∧
        r.latitude = (if hem3 = ['S'] then -((d : ℚ) + m / 60) else (d : ℚ) + m / 60) ∧
        pyIntL (raw4.take 3) = some d2 ∧ pyFloatL (raw4.drop 3) = some m2 ∧
        r.longitude = (if hem5 = ['W'] then -((d2 : ℚ) + m2 / 60) else (d2 : ℚ) + m2 / 60)) := by
  refine ⟨parse_gngga_sample, by norm_num [ggaSentenceData], by norm_num [ggaSentenceData],
    by norm_num [ggaSentenceData], by norm_num [ggaSentenceData], rfl, rfl, ?_⟩
  intro nowDate s r h
  obtain ⟨raw2, hem3, raw4, hem5, h2, h3, h4, h5, hlat, hlon⟩ := parse_gngga_inv h
  obtain ⟨d, m, hd, hm, hx⟩ := latFromRaw_inv hlat
  obtain ⟨d2, m2, hd2, hm2, hx2⟩ := lonFromRaw_inv hlon
  exact ⟨raw2, hem3, raw4, hem5, d, m, d2, m2, h2, h3, h4, h5, hd, hm, hx, hd2, hm2, hx2⟩

/-- Witness for C3: the decomposition applied to the scenario parse. -/
theorem c3_gga_decoding_witness :
    ∃ raw2 hem3 raw4 hem5 d m d2 m2,
      (tokenize ggaSentence)[2]? = some raw2 ∧ (tokenize ggaSentence)[3]? = some hem3 ∧
      (tokenize ggaSentence)[4]? = some raw4 ∧ (tokenize ggaSentence)[5]? = some hem5 ∧
      pyIntL (raw2.take 2) = some d ∧ pyFloatL (raw2.drop 2) = some m ∧
      ggaSentenceData.latitude =
        (if hem3 = ['S'] then -((d : ℚ) + m / 60) else (d : ℚ) + m / 60) ∧
      pyIntL (raw4.take 3) = some d2 ∧ pyFloatL (raw4.drop 3) = some m2 ∧
      ggaSentenceData.longitude =
        (if hem5 = ['W'] then -((d2 : ℚ) + m2 / 60) else (d2 : ℚ) + m2 / 60) :=
  c3_gga_decoding.2.2.2.2.2.2.2 0 ggaSentence ggaSentenceData parse_gngga_sample

/-- The scenario fix-sentence with its fix-quality field set to 0. -/
def ggaSentenceQ0 : String :=
  "$GNGGA,123519.00,4807.038,N,01131.000,E,0,08,0.9,545.4,M,46.9,M,,*47"

/-- C4: a fix-sentence whose quality field decodes to 0, 6, 7 or 8 is
silently dropped — the parser returns `none` (the same non-raising "no
data" result) and the sentence leaves the fusion accumulator unchanged;
for any other quality value the parser proceeds into the remaining parse
body. -/
theorem c4_quality_gate (nowDate : Int) (s : String) (q : Int)
    (h0 : (tokenize s)[0]? = some ggaTag)
    (h6 : ((tokenize s)[6]?).bind pyIntL = some q) :
    (q = 0 ∨ q = 6 ∨ q = 7 ∨ q = 8 →
      parse_gngga nowDate s = none ∧ ∀ a, mergeLine nowDate a s = a) ∧
    (¬(q = 0 ∨ q = 6 ∨ q = 7 ∨ q = 8) →
      parse_gngga nowDate s = parse_gngga_body nowDate (tokenize s) q) := by
  rw [Option.bind_eq_some'] at h6
  obtain ⟨f6, hf6, hq⟩ := h6
  have hunfold : parse_gngga nowDate s =
      if q = 0 ∨ q = 6 ∨ q = 7 ∨ q = 8 then none
      else parse_gngga_body nowDate (tokenize s) q := by
    simp only [parse_gngga, h0, hf6, hq]
    simp
  constructor
  · intro hin
    have hnone : parse_gngga nowDate s = none := by rw [hunfold, if_pos hin]
    refine ⟨hnone, fun a => ?_⟩
    unfold mergeLine
    split
    · rw [hnone]
    · split
      · have hv : parse_gnvtg s = none := by
          have hne : ¬ (ggaTag = vtgTag) := by decide
          simp only [parse_gnvtg, h0]
          simp [hne]
        rw [hv]
      · rfl
  · intro hnin
    rw [hunfold, if_neg hnin]

/-- Witness for C4: the quality-0 variant of the scenario sentence is
dropped and leaves the accumulator unchanged; the quality-1 scenario
sentence proceeds into the parse body. -/
theorem c4_quality_gate_witness :
    parse_gngga 0 ggaSentenceQ0 = none ∧
    mergeLine 0 emptyAccum ggaSentenceQ0 = emptyAccum ∧
    parse_gngga 0 ggaSentence = parse_gngga_body 0 (tokenize ggaSentence) 1 := by
  have h1 := c4_quality_gate 0 ggaSentenceQ0 0 (by decide) (by decide)
  have h2 := c4_quality_gate 0 ggaSentence 1 (by decide) (by decide)
  exact ⟨(h1.1 (Or.inl rfl)).1, (h1.1 (Or.inl rfl)).2 emptyAccum,
    h2.2 (by norm_num)⟩

/-- C9: malformed input never escapes as an exception — the parsers are
total functions into `Option` (the source's `except (IndexError,
ValueError)` wrappers), and every malformed line (the literal
`"Invalid Sentence"`, a wrong identifier, too few fields, a malformed
numeric quality field) yields the "no data" result `none`. -/
theorem c9_malformed_no_raise :
    parse_gngga 0 "Invalid Sentence" = none ∧
    parse_gnvtg "Invalid Sentence" = none ∧
    parse_gngga_sentence 0 "Invalid Sentence" = none ∧
    (∀ nowDate s, (tokenize s)[0]? ≠ some ggaTag → parse_gngga nowDate s = none) ∧
    (∀ s, (tokenize s)[0]? ≠ some vtgTag → parse_gnvtg s = none) ∧
    (∀ nowDate s, (tokenize s).length ≤ 6 → parse_gngga nowDate s = none) ∧
    (∀ s, (tokenize s).length ≤ 1 → parse_gnvtg s = none) ∧
    (∀ nowDate s f6, (tokenize s)[6]? = some f6 → pyIntL f6 = none →
      parse_gngga nowDate s = none) := by
  refine ⟨by decide, by decide, by decide, ?_, ?_, ?_, ?_, ?_⟩
  · intro nowDate s hne
    simp only [parse_gngga]
    cases h0v : (tokenize s)[0]? with
    | none => rfl
    | some p0 =>
      have hp : ¬ p0 = ggaTag := fun he => hne (he ▸ h0v)
      simp [hp]
  · intro s hne
    simp only [parse_gnvtg]
    cases h0v : (tokenize s)[0]? with
    | none => rfl
    | some p0 =>
      have hp : ¬ p0 = vtgTag := fun he => hne (he ▸ h0v)
      simp [hp]
  · intro nowDate s hlen
    have h6 : (tokenize s)[6]? = none := by
      rw [List.getElem?_eq_none_iff]
      omega
    simp only [parse_gngga]
    cases h0v : (tokenize s)[0]? with
    | none => rfl
    | some p0 =>
      by_cases hp : p0 = ggaTag
      · subst hp
        simp [h6]
      · simp [hp]
  · intro s hlen
    have h1 : (tokenize s)[1]? = none := by
      rw [List.getElem?_eq_none_iff]
      omega
    simp only [parse_gnvtg]
    cases h0v : (tokenize s)[0]? with
    | none => rfl
    | some p0 =>
      by_cases hp : p0 = vtgTag
      · subst hp
        simp [h1]
      · simp [hp]
  · intro nowDate s f6 hf6 hq
    simp only [parse_gngga]
    cases h0v : (tokenize s)[0]? with
    | none => rfl
    | some p0 =>
      by_cases hp : p0 = ggaTag
      · subst hp
        simp [hf6, hq]
      · simp [hp]

/-- Witness for C9: the three generic failure modes applied at concrete
malformed sentences — a wrong identifier, a truncated sentence and a
non-numeric quality field. -/
theorem c9_malformed_no_raise_witness :
    parse_gngga 0 "$GPGGA,123519.00,4807.038,N,01131.000,E,1,08" = none ∧
    parse_gngga 0 "$GNGGA,123519.00" = none ∧
    parse_gngga 0 "$GNGGA,123519.00,4807.038,N,01131.000,E,abc,08" = none := by
  refine ⟨c9_malformed_no_raise.2.2.2.1 0 _ (by decide),
    c9_malformed_no_raise.2.2.2.2.2.1 0 _ (by decide),
    c9_malformed_no_raise.2.2.2.2.2.2.2 0 _ "abc".toList (by decide) (by decide)⟩

/-- A bind whose continuation is constantly `none` yields `none`. -/
lemma option_bind_const_none {α β : Type} (x : Option α) :
    (x >>= fun _ => (none : Option β)) = none := by
  cases x <;> rfl

/-- If the latitude decode of fields 2/3 fails, the strict fix-sentence
parser returns `none`. -/
lemma parse_gngga_sentence_none_of_lat (nowDate : Int) (s : String) (raw dir : List Char)
    (h2 : (tokenizeL (pyStrip s))[2]? = some raw)
    (h3 : (tokenizeL (pyStrip s))[3]? = some dir)
    (hf : (_parse_latitude raw dir).toOption = none) :
    parse_gngga_sentence nowDate s = none := by
  simp only [parse_gngga_sentence]
  split
  · rfl
  · split
    · rfl
    · split
      · rfl
      · split
        · rfl
        · simp [h2, h3, hf, option_bind_const_none]

/-- If the longitude decode of fields 4/5 fails, the strict fix-sentence
parser returns `none`. -/
lemma parse_gngga_sentence_none_of_lon (nowDate : Int) (s : String) (raw dir : List Char)
    (h4 : (tokenizeL (pyStrip s))[4]? = some raw)
    (h5 : (tokenizeL (pyStrip s))[5]? = some dir)
    (hf : (_parse_longitude raw dir).toOption = none) :
    parse_gngga_sentence nowDate s = none := by
  simp only [parse_gngga_sentence]
  split
  · rfl
  · split
    · rfl
    · split
      · rfl
      · split
        · rfl
        · simp [h4, h5, hf, option_bind_const_none]

/-- C8: the latitude/longitude field decoder fails with a decode error
whenever the raw coordinate string is empty or non-numeric or the
hemisphere field is empty; and whenever the decode of the coordinate
fields fails, the fix-sentence parser returns a failure (`none`) rather
than a fix record. -/
theorem c8_coordinate_decode_errors :
    (∀ raw dir, raw = [] ∨ dir = [] ∨ pyIntL (raw.take 2) = none ∨
        pyFloatL (raw.drop 2) = none →
      ∃ e, _parse_latitude raw dir = Except.error e) ∧
    (∀ raw dir, raw = [] ∨ dir = [] ∨ pyIntL (raw.take 3) = none ∨
        pyFloatL (raw.drop 3) = none →
      ∃ e, _parse_longitude raw dir = Except.error e) ∧
    (∀ nowDate s raw dir, (tokenizeL (pyStrip s))[2]? = some raw →
      (tokenizeL (pyStrip s))[3]? = some dir →
      (∃ e, _parse_latitude raw dir = Except.error e) →
      parse_gngga_sentence nowDate s = none) ∧
    (∀ nowDate s raw dir, (tokenizeL (pyStrip s))[4]? = some raw →
      (tokenizeL (pyStrip s))[5]? = some dir →
      (∃ e, _parse_longitude raw dir = Except.error e) →
      parse_gngga_sentence nowDate s = none) := by
  refine ⟨?_, ?_, ?_, ?_⟩
  · intro raw dir h
    by_cases h0 : raw = [] ∨ dir = []
    · exact ⟨"Missing latitude data", by simp only [_parse_latitude, if_pos h0]⟩
    · rcases h with h | h | h | h
      · exact absurd (Or.inl h) h0
      · exact absurd (Or.inr h) h0
      · exact ⟨"invalid literal for int", by simp only [_parse_latitude, if_neg h0, h]⟩
      · cases hd : pyIntL (raw.take 2) with
        | none =>
          exact ⟨"invalid literal for int", by simp only [_parse_latitude, if_neg h0, hd]⟩
        | some d =>
          exact ⟨"could not convert string to float",
            by simp only [_parse_latitude, if_neg h0, hd, h]⟩
  · intro raw dir h
    by_cases h0 : raw = [] ∨ dir = []
    · exact ⟨"Missing longitude data", by simp only [_parse_longitude, if_pos h0]⟩
    · rcases h with h | h | h | h
      · exact absurd (Or.inl h) h0
      · exact absurd (Or.inr h) h0
      · exact ⟨"invalid literal for int", by simp only [_parse_longitude, if_neg h0, h]⟩
      · cases hd : pyIntL (raw.take 3) with
        | none =>
          exact ⟨"invalid literal for int", by simp only [_parse_longitude, if_neg h0, hd]⟩
        | some d =>
          exact ⟨"could not convert string to float",
            by simp only [_parse_longitude, if_neg h0, hd, h]⟩
  · intro nowDate s raw dir h2 h3 ⟨e, he⟩
    exact parse_gngga_sentence_none_of_lat nowDate s raw dir h2 h3 (by rw [he]; rfl)
  · intro nowDate s raw dir h4 h5 ⟨e, he⟩
    exact parse_gngga_sentence_none_of_lon nowDate s raw dir h4 h5 (by rw [he]; rfl)

/-- Witness for C8: the empty raw string fails the decoder, and the
scenario sentence with its latitude field emptied is rejected by the
strict parser. -/
theorem c8_coordinate_decode_errors_witness :
    (∃ e, _parse_latitude [] "N".toList = Except.error e) ∧
    (∃ e, _parse_longitude "01131.000".toList [] = Except.error e) ∧
    parse_gngga_sentence 0 "$GNGGA,123519.00,,N,01131.000,E,1,08,0.9,545.4,M,46.9,M,,*47" =
      none := by
  refine ⟨c8_coordinate_decode_errors.1 [] "N".toList (Or.inl rfl),
    c8_coordinate_decode_errors.2.1 "01131.000".toList [] (Or.inr (Or.inl rfl)),
    c8_coordinate_decode_errors.2.2.1 0 _ [] "N".toList (by decide) (by decide)
      (c8_coordinate_decode_errors.1 [] "N".toList (Or.inl rfl))⟩
